import Mathlib

/-!
Verification of the retrieval-session manager and catalog preprocessing of the
CHESS_PLUS repository, shallowly embedded from
`src/runner/database_manager.py` and `src/database_utils/db_catalog/preprocess.py`.

Loaded index objects are modelled by type parameters `L` (the LSH structure),
`M` (the minhash signatures) and `V` (the vector-store handle); the outcomes of
the external load primitives (pickle deserialization, Chroma construction) are
supplied as `Except` oracles, since the Python code catches any exception they
raise.
-/

namespace ChessPlus

/-- State of one lazily loaded index attribute of the session.  In the source
the Python attribute holds `None` before any load attempt, the loaded object
after a successful load, and the string sentinel `"error"` after a failed
one. -/
inductive Slot (α : Type) where
  | unloaded : Slot α
  | loaded : α → Slot α
  | failed : Slot α
deriving DecidableEq, Repr

/-- In-memory state of a `DatabaseManager` instance: the identity fields and
derived paths set by `_init`/`_set_paths`, and the three lazily loaded index
attributes (`lsh`, `minhashes`, `vector_db`). -/
structure Manager (L M V : Type) where
  db_mode : String
  db_id : String
  db_path : String
  db_directory_path : String
  lsh : Slot L
  minhashes : Slot M
  vector_db : Slot V
deriving DecidableEq, Repr

/-- Path of the sqlite file, from `_set_paths`:
`DB_ROOT_PATH / f"{db_mode}_databases" / db_id / f"{db_id}.sqlite"`.
The configured root `DB_ROOT_PATH` is passed explicitly. -/
def sqlitePath (root db_mode db_id : String) : String :=
  root ++ "/" ++ db_mode ++ "_databases/" ++ db_id ++ "/" ++ db_id ++ ".sqlite"

/-- Path of the database directory, from `_set_paths`. -/
def directoryPath (root db_mode db_id : String) : String :=
  root ++ "/" ++ db_mode ++ "_databases/" ++ db_id

/-- Effect of `DatabaseManager._init`: store the identity, recompute the two
derived paths, and reset the three index attributes to `None`. -/
def initManager (L M V : Type) (root db_mode db_id : String) : Manager L M V :=
  { db_mode := db_mode
    db_id := db_id
    db_path := sqlitePath root db_mode db_id
    db_directory_path := directoryPath root db_mode db_id
    lsh := Slot.unloaded
    minhashes := Slot.unloaded
    vector_db := Slot.unloaded }

/-- `DatabaseManager.set_lsh`: under the class lock, if `self.lsh is None`
attempt to deserialize the two pickle artifacts (the combined outcome is the
`loadResult` oracle); on success store both objects and return `"success"`, on
any exception store the `"error"` sentinel in both attributes and return
`"error"`.  If `self.lsh == "error"` return `"error"` without any attempt,
otherwise return `"success"`. -/
def set_lsh {L M V : Type} (m : Manager L M V) (loadResult : Except String (L × M)) :
    String × Manager L M V :=
  match m.lsh with
  | Slot.unloaded =>
    match loadResult with
    | Except.ok lm =>
      ("success", { m with lsh := Slot.loaded lm.1, minhashes := Slot.loaded lm.2 })
    | Except.error _ =>
      ("error", { m with lsh := Slot.failed, minhashes := Slot.failed })
  | Slot.failed => ("error", m)
  | Slot.loaded _ => ("success", m)

/-- `DatabaseManager.set_vector_db`: if `self.vector_db is None` attempt to
construct the Chroma handle bound to the `context_vector_db` directory (outcome
given by the `loadResult` oracle); on success store it and return `"success"`,
on any exception store the `"error"` sentinel and return `"error"`.  If
`self.vector_db == "error"` return `"error"` without any attempt, otherwise
return `"success"`.  Unlike `set_lsh`, the source takes no lock here. -/
def set_vector_db {L M V : Type} (m : Manager L M V) (loadResult : Except String V) :
    String × Manager L M V :=
  match m.vector_db with
  | Slot.unloaded =>
    match loadResult with
    | Except.ok v => ("success", { m with vector_db := Slot.loaded v })
    | Except.error _ => ("error", { m with vector_db := Slot.failed })
  | Slot.failed => ("error", m)
  | Slot.loaded _ => ("success", m)

/-- Sequential run of repeated `set_lsh` calls on one session, one load-oracle
outcome per call.  Returns the final state, the list of returned statuses, and
the number of calls that actually entered the load attempt (those finding the
attribute equal to `None`). -/
def runSetLsh {L M V : Type} (m : Manager L M V) (loads : List (Except String (L × M))) :
    Manager L M V × List String × Nat :=
  match loads with
  | [] => (m, [], 0)
  | l :: ls =>
    let a : Nat := match m.lsh with | Slot.unloaded => 1 | _ => 0
    let r := set_lsh m l
    let rest := runSetLsh r.2 ls
    (rest.1, r.1 :: rest.2.1, a + rest.2.2)

/-- Sequential run of repeated `set_vector_db` calls on one session. -/
def runSetVector {L M V : Type} (m : Manager L M V) (loads : List (Except String V)) :
    Manager L M V × List String × Nat :=
  match loads with
  | [] => (m, [], 0)
  | l :: ls =>
    let a : Nat := match m.vector_db with | Slot.unloaded => 1 | _ => 0
    let r := set_vector_db m l
    let rest := runSetVector r.2 ls
    (rest.1, r.1 :: rest.2.1, a + rest.2.2)

theorem set_lsh_of_not_unloaded {L M V : Type} (m : Manager L M V)
    (l : Except String (L × M)) (h : m.lsh ≠ Slot.unloaded) :
    (set_lsh m l).2 = m := by
  cases hm : m.lsh with
  | unloaded => exact (h hm).elim
  | loaded a => simp [set_lsh, hm]
  | failed => simp [set_lsh, hm]

theorem set_vector_db_of_not_unloaded {L M V : Type} (m : Manager L M V)
    (l : Except String V) (h : m.vector_db ≠ Slot.unloaded) :
    (set_vector_db m l).2 = m := by
  cases hm : m.vector_db with
  | unloaded => exact (h hm).elim
  | loaded a => simp [set_vector_db, hm]
  | failed => simp [set_vector_db, hm]

theorem runSetLsh_failed {L M V : Type} (m : Manager L M V)
    (loads : List (Except String (L × M))) (h : m.lsh = Slot.failed) :
    runSetLsh m loads = (m, loads.map (fun _ => "error"), 0) := by
  induction loads with
  | nil => simp [runSetLsh]
  | cons l ls ih =>
    have hstep : set_lsh m l = ("error", m) := by simp [set_lsh, h]
    simp [runSetLsh, h, hstep, ih]

theorem runSetVector_failed {L M V : Type} (m : Manager L M V)
    (loads : List (Except String V)) (h : m.vector_db = Slot.failed) :
    runSetVector m loads = (m, loads.map (fun _ => "error"), 0) := by
  induction loads with
  | nil => simp [runSetVector]
  | cons l ls ih =>
    have hstep : set_vector_db m l = ("error", m) := by simp [set_vector_db, h]
    simp [runSetVector, h, hstep, ih]

theorem runSetLsh_attempts_zero {L M V : Type} (m : Manager L M V)
    (loads : List (Except String (L × M))) (h : m.lsh ≠ Slot.unloaded) :
    (runSetLsh m loads).2.2 = 0 := by
  induction loads generalizing m with
  | nil => simp [runSetLsh]
  | cons l ls ih =>
    have hstep := set_lsh_of_not_unloaded m l h
    have h2 : (set_lsh m l).2.lsh ≠ Slot.unloaded := by rw [hstep]; exact h
    cases hm : m.lsh with
    | unloaded => exact (h hm).elim
    | loaded a => simp [runSetLsh, hm, ih _ h2]
    | failed => simp [runSetLsh, hm, ih _ h2]

theorem runSetVector_attempts_zero {L M V : Type} (m : Manager L M V)
    (loads : List (Except String V)) (h : m.vector_db ≠ Slot.unloaded) :
    (runSetVector m loads).2.2 = 0 := by
  induction loads generalizing m with
  | nil => simp [runSetVector]
  | cons l ls ih =>
    have hstep := set_vector_db_of_not_unloaded m l h
    have h2 : (set_vector_db m l).2.vector_db ≠ Slot.unloaded := by rw [hstep]; exact h
    cases hm : m.vector_db with
    | unloaded => exact (h hm).elim
    | loaded a => simp [runSetVector, hm, ih _ h2]
    | failed => simp [runSetVector, hm, ih _ h2]

theorem set_lsh_not_unloaded_after {L M V : Type} (m : Manager L M V)
    (l : Except String (L × M)) : (set_lsh m l).2.lsh ≠ Slot.unloaded := by
  cases hm : m.lsh with
  | unloaded => cases l <;> simp [set_lsh, hm]
  | loaded a => simp [set_lsh, hm]
  | failed => simp [set_lsh, hm]

theorem set_vector_db_not_unloaded_after {L M V : Type} (m : Manager L M V)
    (l : Except String V) : (set_vector_db m l).2.vector_db ≠ Slot.unloaded := by
  cases hm : m.vector_db with
  | unloaded => cases l <;> simp [set_vector_db, hm]
  | loaded a => simp [set_vector_db, hm]
  | failed => simp [set_vector_db, hm]

theorem runSetLsh_attempts_le_one {L M V : Type} (m : Manager L M V)
    (loads : List (Except String (L × M))) : (runSetLsh m loads).2.2 ≤ 1 := by
  cases loads with
  | nil => simp [runSetLsh]
  | cons l ls =>
    have hz := runSetLsh_attempts_zero (set_lsh m l).2 ls (set_lsh_not_unloaded_after m l)
    cases hm : m.lsh with
    | unloaded => simp [runSetLsh, hm, hz]
    | loaded a => simp [runSetLsh, hm, hz]
    | failed => simp [runSetLsh, hm, hz]

theorem runSetVector_attempts_le_one {L M V : Type} (m : Manager L M V)
    (loads : List (Except String V)) : (runSetVector m loads).2.2 ≤ 1 := by
  cases loads with
  | nil => simp [runSetVector]
  | cons l ls =>
    have hz := runSetVector_attempts_zero (set_vector_db m l).2 ls
      (set_vector_db_not_unloaded_after m l)
    cases hm : m.vector_db with
    | unloaded => simp [runSetVector, hm, hz]
    | loaded a => simp [runSetVector, hm, hz]
    | failed => simp [runSetVector, hm, hz]

/-- C1.  Once an index state slot has transitioned to Failed, it never
transitions back to Loaded within that session: any further sequence of
`set_lsh` (resp. `set_vector_db`) calls leaves the state unchanged, returns
`"error"` on every call and performs zero further load attempts; moreover, from
any state at most one load attempt occurs across any number of calls on a
slot. -/
theorem failed_slot_never_retried {L M V : Type} (m : Manager L M V)
    (loads : List (Except String (L × M))) (vloads : List (Except String V)) :
    (m.lsh = Slot.failed → runSetLsh m loads = (m, loads.map (fun _ => "error"), 0)) ∧
    (runSetLsh m loads).2.2 ≤ 1 ∧
    (m.vector_db = Slot.failed →
      runSetVector m vloads = (m, vloads.map (fun _ => "error"), 0)) ∧
    (runSetVector m vloads).2.2 ≤ 1 :=
  ⟨fun h => runSetLsh_failed m loads h,
   runSetLsh_attempts_le_one m loads,
   fun h => runSetVector_failed m vloads h,
   runSetVector_attempts_le_one m vloads⟩

/-- Concrete session state whose two index slots have both failed, as left by
a first failing load attempt on each slot. -/
def mgrFailed : Manager Nat Nat Nat :=
  { db_mode := "dev"
    db_id := "card_games"
    db_path := sqlitePath "root" "dev" "card_games"
    db_directory_path := directoryPath "root" "dev" "card_games"
    lsh := Slot.failed
    minhashes := Slot.failed
    vector_db := Slot.failed }

/-- Witness for C1 at a concrete failed session and two concrete call
sequences. -/
theorem failed_slot_never_retried_witness :
    runSetLsh mgrFailed [Except.ok (1, 2), Except.error "boom"] =
      (mgrFailed, ["error", "error"], 0) ∧
    runSetVector mgrFailed [Except.ok 5] = (mgrFailed, ["error"], 0) := by
  have h := failed_slot_never_retried mgrFailed
    [Except.ok (1, 2), Except.error "boom"] [Except.ok 5]
  exact ⟨by simpa using h.1 rfl, by simpa using h.2.2.1 rfl⟩

/-- Boolean test for the error constructor of `Except`. -/
def isErr {ε α : Type} : Except ε α → Bool
  | Except.error _ => true
  | Except.ok _ => false

/-- `DatabaseManager.query_lsh`: first call `set_lsh`; if its status is
`"success"` delegate to the external helper `query_lsh(self.lsh,
self.minhashes, keyword, signature_size, n_gram, top_n)` and return its result
unmodified, otherwise raise `Exception(f"Error loading LSH for ...db_id")`.
The helper is an opaque parameter receiving the raw attribute values, exactly
as the dynamically typed source passes them. -/
def query_lsh_run {L M V R : Type}
    (helper : Slot L → Slot M → String → Nat → Nat → Nat → R)
    (m : Manager L M V) (loadResult : Except String (L × M))
    (keyword : String) (signature_size n_gram top_n : Nat) :
    Except String R × Manager L M V :=
  let r := set_lsh m loadResult
  if r.1 = "success" then
    (Except.ok (helper r.2.lsh r.2.minhashes keyword signature_size n_gram top_n), r.2)
  else
    (Except.error ("Error loading LSH for " ++ r.2.db_id), r.2)

/-- `DatabaseManager.query_vector_db`: first call `set_vector_db`; if its
status is `"success"` delegate to the external helper
`query_vector_db(self.vector_db, keyword, top_k)` and return its result
unmodified, otherwise raise `Exception(f"Error loading Vector DB for ...db_id")`. -/
def query_vector_db_run {L M V R : Type}
    (helper : Slot V → String → Nat → R)
    (m : Manager L M V) (loadResult : Except String V)
    (keyword : String) (top_k : Nat) :
    Except String R × Manager L M V :=
  let r := set_vector_db m loadResult
  if r.1 = "success" then
    (Except.ok (helper r.2.vector_db keyword top_k), r.2)
  else
    (Except.error ("Error loading Vector DB for " ++ r.2.db_id), r.2)

theorem set_lsh_db_id {L M V : Type} (m : Manager L M V)
    (l : Except String (L × M)) : (set_lsh m l).2.db_id = m.db_id := by
  cases hm : m.lsh with
  | unloaded => cases l <;> simp [set_lsh, hm]
  | loaded a => simp [set_lsh, hm]
  | failed => simp [set_lsh, hm]

theorem set_vector_db_db_id {L M V : Type} (m : Manager L M V)
    (l : Except String V) : (set_vector_db m l).2.db_id = m.db_id := by
  cases hm : m.vector_db with
  | unloaded => cases l <;> simp [set_vector_db, hm]
  | loaded a => simp [set_vector_db, hm]
  | failed => simp [set_vector_db, hm]

theorem set_lsh_status_error_iff {L M V : Type} (m : Manager L M V)
    (l : Except String (L × M)) :
    ((set_lsh m l).1 = "success" ↔ (set_lsh m l).2.lsh ≠ Slot.failed) := by
  cases hm : m.lsh with
  | unloaded => cases l <;> simp [set_lsh, hm]
  | loaded a => simp [set_lsh, hm]
  | failed => simp [set_lsh, hm]

theorem set_vector_db_status_error_iff {L M V : Type} (m : Manager L M V)
    (l : Except String V) :
    ((set_vector_db m l).1 = "success" ↔ (set_vector_db m l).2.vector_db ≠ Slot.failed) := by
  cases hm : m.vector_db with
  | unloaded => cases l <;> simp [set_vector_db, hm]
  | loaded a => simp [set_vector_db, hm]
  | failed => simp [set_vector_db, hm]

/-- C2.  `query_lsh` raises exactly when the LSH slot ends up Failed, with an
error message naming the bound database identity; `query_vector_db` raises
exactly when the vector slot ends up Failed, with a message naming both the
identity and the `Vector DB` subsystem.  When the slot is Loaded, each
operation returns the external query helper result unmodified. -/
theorem query_raises_iff_slot_failed {L M V R S : Type}
    (helperL : Slot L → Slot M → String → Nat → Nat → Nat → R)
    (helperV : Slot V → String → Nat → S)
    (m : Manager L M V) (loadL : Except String (L × M)) (loadV : Except String V)
    (keyword : String) (signature_size n_gram top_n top_k : Nat) :
    (isErr (query_lsh_run helperL m loadL keyword signature_size n_gram top_n).1 = true ↔
      (query_lsh_run helperL m loadL keyword signature_size n_gram top_n).2.lsh =
        Slot.failed) ∧
    ((query_lsh_run helperL m loadL keyword signature_size n_gram top_n).2.lsh =
        Slot.failed →
      (query_lsh_run helperL m loadL keyword signature_size n_gram top_n).1 =
        Except.error ("Error loading LSH for " ++ m.db_id)) ∧
    ((query_lsh_run helperL m loadL keyword signature_size n_gram top_n).2.lsh ≠
        Slot.failed →
      (query_lsh_run helperL m loadL keyword signature_size n_gram top_n).1 =
        Except.ok (helperL (set_lsh m loadL).2.lsh (set_lsh m loadL).2.minhashes
          keyword signature_size n_gram top_n)) ∧
    (isErr (query_vector_db_run helperV m loadV keyword top_k).1 = true ↔
      (query_vector_db_run helperV m loadV keyword top_k).2.vector_db = Slot.failed) ∧
    ((query_vector_db_run helperV m loadV keyword top_k).2.vector_db = Slot.failed →
      (query_vector_db_run helperV m loadV keyword top_k).1 =
        Except.error ("Error loading Vector DB for " ++ m.db_id)) ∧
    ((query_vector_db_run helperV m loadV keyword top_k).2.vector_db ≠ Slot.failed →
      (query_vector_db_run helperV m loadV keyword top_k).1 =
        Except.ok (helperV (set_vector_db m loadV).2.vector_db keyword top_k)) := by
  have hidL := set_lsh_db_id m loadL
  have hidV := set_vector_db_db_id m loadV
  have hL := set_lsh_status_error_iff m loadL
  have hV := set_vector_db_status_error_iff m loadV
  have hsndL : (query_lsh_run helperL m loadL keyword signature_size n_gram top_n).2 =
      (set_lsh m loadL).2 := by
    by_cases hs : (set_lsh m loadL).1 = "success" <;> simp [query_lsh_run, hs]
  have hsndV : (query_vector_db_run helperV m loadV keyword top_k).2 =
      (set_vector_db m loadV).2 := by
    by_cases hs : (set_vector_db m loadV).1 = "success" <;> simp [query_vector_db_run, hs]
  rw [hsndL, hsndV]
  refine ⟨?_, ?_, ?_, ?_, ?_, ?_⟩
  · by_cases hs : (set_lsh m loadL).1 = "success"
    · simp [query_lsh_run, hs, isErr, hL.mp hs]
    · simp [query_lsh_run, hs, isErr, not_not.mp ((not_iff_not.mpr hL).mp hs)]
  · intro hfail
    have hs : ¬ (set_lsh m loadL).1 = "success" := fun hs => (hL.mp hs) hfail
    simp [query_lsh_run, hs, hidL]
  · intro hok
    have hs : (set_lsh m loadL).1 = "success" := hL.mpr hok
    simp [query_lsh_run, hs]
  · by_cases hs : (set_vector_db m loadV).1 = "success"
    · simp [query_vector_db_run, hs, isErr, hV.mp hs]
    · simp [query_vector_db_run, hs, isErr, not_not.mp ((not_iff_not.mpr hV).mp hs)]
  · intro hfail
    have hs : ¬ (set_vector_db m loadV).1 = "success" := fun hs => (hV.mp hs) hfail
    simp [query_vector_db_run, hs, hidV]
  · intro hok
    have hs : (set_vector_db m loadV).1 = "success" := hV.mpr hok
    simp [query_vector_db_run, hs]

/-- Concrete stand-in for the external LSH query helper. -/
def cHelperL : Slot Nat → Slot Nat → String → Nat → Nat → Nat → Nat :=
  fun _ _ _ _ _ _ => 0

/-- Concrete stand-in for the external vector query helper. -/
def cHelperV : Slot Nat → String → Nat → Nat := fun _ _ _ => 0

/-- Witness for C2 at a concrete session whose slots have failed: both query
operations raise, with messages naming the identity, the vector one naming the
Vector DB subsystem. -/
theorem query_raises_iff_slot_failed_witness :
    (query_lsh_run cHelperL mgrFailed (Except.error "e") "kw" 20 3 10).1 =
      Except.error ("Error loading LSH for " ++ mgrFailed.db_id) ∧
    (query_vector_db_run cHelperV mgrFailed (Except.error "e") "kw" 5).1 =
      Except.error ("Error loading Vector DB for " ++ mgrFailed.db_id) ∧
    mgrFailed.db_id = "card_games" := by
  have h := query_raises_iff_slot_failed cHelperL cHelperV mgrFailed
    (Except.error "e") (Except.error "e") "kw" 20 3 10 5
  exact ⟨h.2.1 rfl, h.2.2.2.2.1 rfl, rfl⟩

/-- Truthiness of the Python guard `column_info.get(key, '').strip()`: the
stripped string is non-empty exactly when some character of the original is
not whitespace. -/
def stripNonempty (s : String) : Bool :=
  s.data.any fun ch => !ch.isWhitespace

/-- Descriptive fields of one column as returned by the catalog collaborator.
A key missing from the Python dict reads back as the empty string, matching
the `column_info.get(key, '')` accesses of the source. -/
structure ColumnInfo where
  column_name : String
  column_description : String
  value_description : String
deriving DecidableEq, Repr

/-- Catalog shape: tables in iteration order, each carrying its columns in
iteration order. -/
abbrev Catalog := List (String × List (String × ColumnInfo))

/-- Metadata dict attached to the documents of a column in
`make_db_context_vec_db`. -/
structure DocMetadata where
  table_name : String
  original_column_name : String
  column_name : String
  column_description : String
  value_description : String
deriving DecidableEq, Repr

/-- Retrieval document: embedded text (`page_content`) plus metadata. -/
structure Document where
  page_content : String
  metadata : DocMetadata
deriving DecidableEq, Repr

/-- Documents contributed by one column in `make_db_context_vec_db`: the
metadata dict is built once (its `value_description` entry is the column field
when the flag is set, else `""`), then for each key in `[column_name,
column_description, value_description]` in order, one document carries that
field as its text when the field strips to non-empty. -/
def columnDocs (use_value_description : Bool)
    (table_name original_column_name : String) (column_info : ColumnInfo) :
    List Document :=
  let metadata : DocMetadata :=
    { table_name := table_name
      original_column_name := original_column_name
      column_name := column_info.column_name
      column_description := column_info.column_description
      value_description :=
        if use_value_description then column_info.value_description else "" }
  (if stripNonempty column_info.column_name then
    [{ page_content := column_info.column_name, metadata := metadata }] else []) ++
  (if stripNonempty column_info.column_description then
    [{ page_content := column_info.column_description, metadata := metadata }] else []) ++
  (if stripNonempty column_info.value_description then
    [{ page_content := column_info.value_description, metadata := metadata }] else [])

/-- Document list built by the table/column loop of `make_db_context_vec_db`
over an already loaded table description. -/
def docsForTableDescription (table_description : Catalog)
    (use_value_description : Bool) : List Document :=
  table_description.flatMap fun tc =>
    tc.2.flatMap fun ci => columnDocs use_value_description tc.1 ci.1 ci.2

/-- Modelled from the spec: the catalog collaborator `load_tables_description`
(in `database_utils.db_catalog.csv_utils`, not under src/) returns, per table
and column, the three descriptive fields of that column; per the Document
Builder contract the value-description field is included only when
`use_value_description` is set, so with the flag false that field is absent
and reads back as the empty string. -/
def load_tables_description (raw : Catalog) (use_value_description : Bool) :
    Catalog :=
  if use_value_description then raw
  else raw.map fun tc =>
    (tc.1, tc.2.map fun ci => (ci.1, { ci.2 with value_description := "" }))

/-- Documents built by `make_db_context_vec_db` from a raw catalog and the
`use_value_description` flag: the source first calls `load_tables_description`
with the flag, then runs the document loop, again consulting the flag for the
metadata entry. -/
def make_db_context_vec_db_docs (raw : Catalog) (use_value_description : Bool) :
    List Document :=
  docsForTableDescription (load_tables_description raw use_value_description)
    use_value_description

/-- Stated from the spec, for refinement comparison: with the flag false, a
column contributes its name document and its description document (each when
the field trims to non-empty) and nothing else, with empty value-description
metadata. -/
def specColumnDocsNoVd (table_name original_column_name : String)
    (info : ColumnInfo) : List Document :=
  let md : DocMetadata :=
    { table_name := table_name
      original_column_name := original_column_name
      column_name := info.column_name
      column_description := info.column_description
      value_description := "" }
  (if stripNonempty info.column_name then
    [{ page_content := info.column_name, metadata := md }] else []) ++
  (if stripNonempty info.column_description then
    [{ page_content := info.column_description, metadata := md }] else [])

/-- Stated from the spec: with the flag true, a column contributes name,
description and value-description documents, each when the field trims to
non-empty, with the true value-description recorded in the metadata. -/
def specColumnDocsVd (table_name original_column_name : String)
    (info : ColumnInfo) : List Document :=
  let md : DocMetadata :=
    { table_name := table_name
      original_column_name := original_column_name
      column_name := info.column_name
      column_description := info.column_description
      value_description := info.value_description }
  (if stripNonempty info.column_name then
    [{ page_content := info.column_name, metadata := md }] else []) ++
  (if stripNonempty info.column_description then
    [{ page_content := info.column_description, metadata := md }] else []) ++
  (if stripNonempty info.value_description then
    [{ page_content := info.value_description, metadata := md }] else [])

/-- Spec-side Document Builder output with the flag false. -/
def specDocsNoVd (raw : Catalog) : List Document :=
  raw.flatMap fun tc => tc.2.flatMap fun ci => specColumnDocsNoVd tc.1 ci.1 ci.2

/-- Spec-side Document Builder output with the flag true. -/
def specDocsVd (raw : Catalog) : List Document :=
  raw.flatMap fun tc => tc.2.flatMap fun ci => specColumnDocsVd tc.1 ci.1 ci.2

theorem stripNonempty_empty : stripNonempty "" = false := rfl

theorem columnDocs_false_blank (t c : String) (info : ColumnInfo) :
    columnDocs false t c { info with value_description := "" } =
      specColumnDocsNoVd t c info := by
  simp [columnDocs, specColumnDocsNoVd, stripNonempty_empty]

theorem columnDocs_true_eq (t c : String) (info : ColumnInfo) :
    columnDocs true t c info = specColumnDocsVd t c info := by
  simp [columnDocs, specColumnDocsVd]

theorem load_tables_description_true (raw : Catalog) :
    load_tables_description raw true = raw := rfl

theorem load_tables_description_false (raw : Catalog) :
    load_tables_description raw false =
      raw.map fun tc =>
        (tc.1, tc.2.map fun ci => (ci.1, { ci.2 with value_description := "" })) := rfl

theorem inner_false_eq (t : String) (cols : List (String × ColumnInfo)) :
    ((cols.map fun ci => (ci.1, { ci.2 with value_description := "" })).flatMap
        fun ci => columnDocs false t ci.1 ci.2) =
      cols.flatMap fun ci => specColumnDocsNoVd t ci.1 ci.2 := by
  induction cols with
  | nil => rfl
  | cons c cs ih => simp only [List.map_cons, List.flatMap_cons, ih, columnDocs_false_blank]

/-- C3.  With `use_value_description = false` the Document Builder emits, per
column, exactly the name and description documents of the spec (so no document
whose text is the value-description field), and with the flag true it emits
exactly the three-field document list of the spec — hence the name and
description documents are unaffected by the flag. -/
theorem docs_flag_false_only_name_description (raw : Catalog) :
    make_db_context_vec_db_docs raw false = specDocsNoVd raw ∧
    make_db_context_vec_db_docs raw true = specDocsVd raw := by
  constructor
  · show docsForTableDescription (load_tables_description raw false) false = _
    rw [load_tables_description_false]
    induction raw with
    | nil => rfl
    | cons tc tcs ih =>
      simp only [docsForTableDescription, specDocsNoVd, List.map_cons,
        List.flatMap_cons] at ih ⊢
      rw [inner_false_eq, ih]
  · show docsForTableDescription (load_tables_description raw true) true = _
    rw [load_tables_description_true]
    simp only [docsForTableDescription, specDocsVd, columnDocs_true_eq]

theorem stripNonempty_ne_empty (s : String) (h : stripNonempty s = true) : s ≠ "" := by
  intro he
  subst he
  simp [stripNonempty] at h

theorem mem_columnDocs_strip (flag : Bool) (t c : String) (info : ColumnInfo)
    (d : Document) (hd : d ∈ columnDocs flag t c info) :
    stripNonempty d.page_content = true := by
  unfold columnDocs at hd
  simp only [List.mem_append] at hd
  rcases hd with (hd | hd) | hd <;> split at hd <;> simp_all

theorem columnDocs_length_le_three (flag : Bool) (t c : String) (info : ColumnInfo) :
    (columnDocs flag t c info).length ≤ 3 := by
  unfold columnDocs
  split_ifs <;> simp

/-- C7.  The Document Builder never emits a document whose text is empty or
whitespace-only (the guard skips fields that strip to empty), and one column
contributes at most three documents (trivially at least zero). -/
theorem docs_nonblank_and_at_most_three (raw : Catalog) (flag : Bool) (d : Document)
    (t c : String) (info : ColumnInfo) :
    (d ∈ make_db_context_vec_db_docs raw flag →
      stripNonempty d.page_content = true ∧ d.page_content ≠ "") ∧
    (columnDocs flag t c info).length ≤ 3 := by
  constructor
  · intro hd
    unfold make_db_context_vec_db_docs docsForTableDescription at hd
    rw [List.mem_flatMap] at hd
    obtain ⟨tc, _, hd⟩ := hd
    rw [List.mem_flatMap] at hd
    obtain ⟨ci, _, hd⟩ := hd
    have hs := mem_columnDocs_strip flag tc.1 ci.1 ci.2 d hd
    exact ⟨hs, stripNonempty_ne_empty _ hs⟩
  · exact columnDocs_length_le_three flag t c info

/-- Column of the example scenario of the spec: a display name, no
description, and a non-empty value description. -/
def cexInfo : ColumnInfo :=
  { column_name := "Department ID"
    column_description := ""
    value_description := "FK to departments.id" }

/-- One-table, one-column catalog for concrete evaluation. -/
def cexCatalog : Catalog := [("employees", [("dept_id", cexInfo)])]

/-- Name document emitted for `cexCatalog` with the flag true. -/
def cexDoc : Document :=
  { page_content := "Department ID"
    metadata :=
      { table_name := "employees"
        original_column_name := "dept_id"
        column_name := "Department ID"
        column_description := ""
        value_description := "FK to departments.id" } }

/-- Name document emitted for `cexCatalog` with the flag false. -/
def cexDocNoVd : Document :=
  { page_content := "Department ID"
    metadata :=
      { table_name := "employees"
        original_column_name := "dept_id"
        column_name := "Department ID"
        column_description := ""
        value_description := "" } }

/-- Witness for C7 at the concrete example catalog. -/
theorem docs_nonblank_and_at_most_three_witness :
    cexDoc ∈ make_db_context_vec_db_docs cexCatalog true ∧
    (stripNonempty cexDoc.page_content = true ∧ cexDoc.page_content ≠ "") ∧
    (columnDocs true "employees" "dept_id" cexInfo).length ≤ 3 := by
  have h := docs_nonblank_and_at_most_three cexCatalog true cexDoc
    "employees" "dept_id" cexInfo
  have hmem : cexDoc ∈ make_db_context_vec_db_docs cexCatalog true := by decide
  exact ⟨hmem, h.1 hmem, h.2⟩

theorem mem_columnDocs_false_metadata (t c : String) (info : ColumnInfo)
    (d : Document) (hd : d ∈ columnDocs false t c info) :
    d.metadata.value_description = "" := by
  unfold columnDocs at hd
  simp only [List.mem_append] at hd
  rcases hd with (hd | hd) | hd <;> split at hd <;> simp_all

/-- C6 counterexample.  The claim says that with the flag false the
value-description metadata of every emitted document still records the true
catalog text; on the code, the only document emitted for this catalog carries
an empty value-description metadata entry while the catalog field is the
non-empty string it claims to preserve. -/
theorem metadata_value_description_not_preserved :
    make_db_context_vec_db_docs cexCatalog false = [cexDocNoVd] ∧
    cexInfo.value_description = "FK to departments.id" ∧
    cexDocNoVd.metadata.value_description ≠ "FK to departments.id" := by
  refine ⟨by decide, rfl, by decide⟩

/-- C6 as amended.  With `use_value_description = false` the value-description
metadata entry of every emitted document is the empty string (the source
writes `'' if not use_value_description`, and the loaded description omits the
field), not the true catalog text. -/
theorem metadata_value_description_empty_when_flag_false (raw : Catalog)
    (d : Document) (hd : d ∈ make_db_context_vec_db_docs raw false) :
    d.metadata.value_description = "" := by
  unfold make_db_context_vec_db_docs docsForTableDescription at hd
  rw [List.mem_flatMap] at hd
  obtain ⟨tc, _, hd⟩ := hd
  rw [List.mem_flatMap] at hd
  obtain ⟨ci, _, hd⟩ := hd
  exact mem_columnDocs_false_metadata tc.1 ci.1 ci.2 d hd

/-- Witness for the amended C6 at the concrete example catalog. -/
theorem metadata_value_description_empty_witness :
    cexDocNoVd ∈ make_db_context_vec_db_docs cexCatalog false ∧
    cexDocNoVd.metadata.value_description = "" := by
  have hmem : cexDocNoVd ∈ make_db_context_vec_db_docs cexCatalog false := by decide
  exact ⟨hmem,
    metadata_value_description_empty_when_flag_false cexCatalog cexDocNoVd hmem⟩

/-- `DatabaseManager.__new__`: with both identity arguments present, under the
class lock: create the singleton and run `_init` when `cls._instance is None`;
re-run `_init` when the stored `db_id` differs from the argument; otherwise
return the existing instance.  With either argument absent, raise `ValueError`
when no instance exists, else return the existing instance unchanged.  The
result pairs the new value of `cls._instance` with the returned instance. -/
def managerNew (L M V : Type) (root : String) (inst : Option (Manager L M V))
    (db_mode db_id : Option String) :
    Except String (Option (Manager L M V) × Manager L M V) :=
  match db_mode, db_id with
  | some mode, some i =>
    match inst with
    | none =>
      let m := initManager L M V root mode i
      Except.ok (some m, m)
    | some cur =>
      if cur.db_id ≠ i then
        let m := initManager L M V root mode i
        Except.ok (some m, m)
      else
        Except.ok (some cur, cur)
  | _, _ =>
    match inst with
    | none => Except.error "DatabaseManager instance has not been initialized yet."
    | some cur => Except.ok (some cur, cur)

/-- Live instance for the identity `("train", "x")`, freshly initialized. -/
def mgrTrainX : Manager Nat Nat Nat := initManager Nat Nat Nat "root" "train" "x"

/-- C5 counterexample.  Constructing the manager with the identity
`("test", "x")` while the live instance holds `("train", "x")` — a different
identity, differing in `db_mode` — returns the existing instance unchanged
instead of re-initializing: `__new__` compares only `db_id`, so the stale mode
and stale derived paths are kept. -/
theorem identity_mode_switch_not_reinitialized :
    managerNew Nat Nat Nat "root" (some mgrTrainX) (some "test") (some "x") =
      Except.ok (some mgrTrainX, mgrTrainX) ∧
    mgrTrainX.db_mode = "train" ∧
    mgrTrainX.db_mode ≠ "test" ∧
    mgrTrainX.db_directory_path ≠ directoryPath "root" "test" "x" := by
  refine ⟨rfl, rfl, by decide, by decide⟩

/-- C5 as amended.  The singleton is keyed by `db_id` alone: constructing with
a `db_id` different from the stored one re-initializes the single instance
(index slots reset to Unloaded, paths recomputed from the new mode and id),
while constructing with the same `db_id` returns the existing instance with
its cached state preserved — even when `db_mode` differs, in which case the
stale mode and paths are kept. -/
theorem singleton_keyed_by_db_id (L M V : Type) (root mode i : String)
    (cur : Manager L M V) :
    (cur.db_id ≠ i →
      managerNew L M V root (some cur) (some mode) (some i) =
        Except.ok (some (initManager L M V root mode i),
          initManager L M V root mode i)) ∧
    (cur.db_id = i →
      managerNew L M V root (some cur) (some mode) (some i) =
        Except.ok (some cur, cur)) ∧
    (initManager L M V root mode i).lsh = Slot.unloaded ∧
    (initManager L M V root mode i).vector_db = Slot.unloaded ∧
    (initManager L M V root mode i).db_mode = mode ∧
    (initManager L M V root mode i).db_directory_path = directoryPath root mode i := by
  refine ⟨?_, ?_, rfl, rfl, rfl, rfl⟩
  · intro h
    simp [managerNew, h]
  · intro h
    simp [managerNew, h]

/-- Witness for the amended C5: a differing `db_id` re-initializes, the same
`db_id` preserves the instance. -/
theorem singleton_keyed_by_db_id_witness :
    managerNew Nat Nat Nat "root" (some mgrTrainX) (some "train") (some "y") =
      Except.ok (some (initManager Nat Nat Nat "root" "train" "y"),
        initManager Nat Nat Nat "root" "train" "y") ∧
    managerNew Nat Nat Nat "root" (some mgrTrainX) (some "train") (some "x") =
      Except.ok (some mgrTrainX, mgrTrainX) := by
  have h1 := singleton_keyed_by_db_id Nat Nat Nat "root" "train" "y" mgrTrainX
  have h2 := singleton_keyed_by_db_id Nat Nat Nat "root" "train" "x" mgrTrainX
  exact ⟨h1.1 (by decide), h2.2.1 rfl⟩

/-- C10.  With `db_mode` or `db_id` absent (None), `__new__` raises the
ValueError naming the uninitialized manager when no instance has ever been
initialized, and otherwise returns the existing instance unchanged; the
argument-free access path never creates or re-initializes a session. -/
theorem argument_free_access_never_initializes (L M V : Type) (root : String)
    (inst : Option (Manager L M V)) (db_mode db_id : Option String)
    (h : db_mode = none ∨ db_id = none) :
    managerNew L M V root inst db_mode db_id =
      match inst with
      | none => Except.error "DatabaseManager instance has not been initialized yet."
      | some cur => Except.ok (some cur, cur) := by
  rcases h with h | h
  · subst h
    cases inst <;> rfl
  · subst h
    cases db_mode <;> cases inst <;> rfl

/-- Witness for C10: no instance yields the ValueError, an existing instance
is returned unchanged. -/
theorem argument_free_access_witness :
    managerNew Nat Nat Nat "root" none none none =
      Except.error "DatabaseManager instance has not been initialized yet." ∧
    managerNew Nat Nat Nat "root" (some mgrTrainX) (some "test") none =
      Except.ok (some mgrTrainX, mgrTrainX) := by
  have h1 := argument_free_access_never_initializes Nat Nat Nat "root" none
    none none (Or.inl rfl)
  have h2 := argument_free_access_never_initializes Nat Nat Nat "root"
    (some mgrTrainX) (some "test") none (Or.inr rfl)
  exact ⟨h1, h2⟩

/-- Program counter of one thread executing `set_vector_db` on a session.
The source takes no lock in this method, so the statement
`if self.vector_db is None` and the statement `self.vector_db = Chroma(...)`
run as separate atomic steps: pc 0 is about to run the check, pc 1 has seen
`None` and is about to construct and store the handle, pc 2 has returned. -/
structure VecThread where
  pc : Nat
deriving DecidableEq, Repr

/-- Shared state of the race model: the `vector_db` attribute and the number
of Chroma constructor calls performed so far. -/
structure VecGlobal (V : Type) where
  vector_db : Slot V
  chromaCalls : Nat
deriving DecidableEq, Repr

/-- One atomic step of one thread inside `set_vector_db`. -/
def vecStep {V : Type} (loadVal : V) (g : VecGlobal V) (t : VecThread) :
    VecGlobal V × VecThread :=
  if t.pc = 0 then
    match g.vector_db with
    | Slot.unloaded => (g, { pc := 1 })
    | _ => (g, { pc := 2 })
  else if t.pc = 1 then
    ({ vector_db := Slot.loaded loadVal, chromaCalls := g.chromaCalls + 1 },
      { pc := 2 })
  else (g, t)

/-- Run a schedule over a pool of threads: at each entry the named thread
takes one step; out-of-range entries are skipped. -/
def vecRun {V : Type} (loadVal : V) (g : VecGlobal V) (threads : List VecThread)
    (sched : List Nat) : VecGlobal V × List VecThread :=
  match sched with
  | [] => (g, threads)
  | i :: rest =>
    match threads[i]? with
    | none => vecRun loadVal g threads rest
    | some t =>
      let r := vecStep loadVal g t
      vecRun loadVal r.1 (threads.set i r.2) rest

/-- C4 evidence.  `set_vector_db` takes no lock, so two threads issuing the
first query on a freshly constructed session can both pass the `is None`
check before either stores the handle: under the interleaving in which thread
0 and thread 1 each run their check and then each construct, two underlying
Chroma load calls occur instead of the one the claim requires.  (`set_lsh`,
by contrast, runs its check under the class lock.) -/
theorem concurrent_first_load_two_chroma_calls :
    (vecRun (0 : Nat) { vector_db := Slot.unloaded, chromaCalls := 0 }
      [{ pc := 0 }, { pc := 0 }] [0, 1, 0, 1]).1.chromaCalls = 2 := by decide

/-- Outcome of the destroy-and-recreate prefix of `make_db_context_vec_db`:
whether an exception reaches the caller, whether contents of a pre-existing
index directory survive into the rebuilt index, and whether the
`Chroma.from_documents` build call runs. -/
structure BuildOutcome where
  raised : Bool
  oldContentsRemain : Bool
  chromaFromDocumentsCalled : Bool
deriving DecidableEq, Repr

/-- Directory replacement steps of `make_db_context_vec_db`: when the index
directory exists, the shell removal runs through `os.system`, whose exit
status (`rmExitOk` is false on, say, a permission error) is discarded; then
`mkdir(exist_ok=True)` succeeds whether or not the directory survived; then
`Chroma.from_documents` persists into the directory.  None of these steps
raises on a failed removal, so `raised` is false on every path. -/
def make_db_context_vec_db_replace (oldIndexExists rmExitOk : Bool) : BuildOutcome :=
  { raised := false
    oldContentsRemain := oldIndexExists && !rmExitOk
    chromaFromDocumentsCalled := true }

/-- C8 evidence.  When removal of the existing index directory fails, the
build does not abort: no exception propagates to the caller, the build step
still runs, and the stale contents remain inside the directory now
discoverable as a successfully built index — against the claim that the build
aborts with an exception and leaves no ambiguous partial index. -/
theorem build_rm_failure_not_raised :
    make_db_context_vec_db_replace true false =
      { raised := false, oldContentsRemain := true,
        chromaFromDocumentsCalled := true } := rfl

/-- Filesystem effects performed on the per-database artifacts. -/
inductive FsEffect where
  | openStore : String → FsEffect
  | openPickle : String → FsEffect
  | removeTree : String → FsEffect
  | makeDir : String → FsEffect
  | createStore : String → FsEffect
deriving DecidableEq, Repr

/-- Whether an effect creates or replaces on-disk content; opening a handle
or an artifact for reading does not. -/
def createsOrReplaces : FsEffect → Bool
  | FsEffect.removeTree _ => true
  | FsEffect.makeDir _ => true
  | FsEffect.createStore _ => true
  | FsEffect.openStore _ => false
  | FsEffect.openPickle _ => false

/-- Effects of one `set_lsh` call: a first attempt opens the two pickle files
for reading; any later call touches nothing. -/
def set_lsh_effects {L M V : Type} (m : Manager L M V) : List FsEffect :=
  match m.lsh with
  | Slot.unloaded =>
    [FsEffect.openPickle
      (m.db_directory_path ++ "/preprocessed/" ++ m.db_id ++ "_lsh.pkl"),
     FsEffect.openPickle
      (m.db_directory_path ++ "/preprocessed/" ++ m.db_id ++ "_minhashes.pkl")]
  | _ => []

/-- Effects of one `set_vector_db` call: a first attempt constructs the
Chroma handle bound to the fixed per-database location, a read-only open of
that artifact; any later call touches nothing. -/
def set_vector_db_effects {L M V : Type} (m : Manager L M V) : List FsEffect :=
  match m.vector_db with
  | Slot.unloaded => [FsEffect.openStore (m.db_directory_path ++ "/context_vector_db")]
  | _ => []

/-- One query operation of the session, carrying the load oracle consumed if
the call performs a load attempt. -/
inductive QueryOp (L M V : Type) where
  | lshQuery : Except String (L × M) → QueryOp L M V
  | vectorQuery : Except String V → QueryOp L M V

/-- State transition and filesystem effects of one query operation; the query
helpers themselves read only the in-memory handles. -/
def queryStep {L M V : Type} (m : Manager L M V) :
    QueryOp L M V → Manager L M V × List FsEffect
  | QueryOp.lshQuery load => ((set_lsh m load).2, set_lsh_effects m)
  | QueryOp.vectorQuery load => ((set_vector_db m load).2, set_vector_db_effects m)

/-- Run a sequence of query operations on one session, collecting every
filesystem effect performed. -/
def runQueries {L M V : Type} (m : Manager L M V) :
    List (QueryOp L M V) → Manager L M V × List FsEffect
  | [] => (m, [])
  | op :: ops =>
    let r := queryStep m op
    let rest := runQueries r.1 ops
    (rest.1, r.2 ++ rest.2)

/-- Effects of the build prefix of `make_db_context_vec_db`: remove the
existing index directory when present, recreate it, and persist the embedded
documents there. -/
def make_db_context_vec_db_effects (db_directory_path : String)
    (oldIndexExists : Bool) : List FsEffect :=
  let p := db_directory_path ++ "/context_vector_db"
  (if oldIndexExists then [FsEffect.removeTree p] else []) ++
    [FsEffect.makeDir p, FsEffect.createStore p]

theorem queryStep_effects_readonly {L M V : Type} (m : Manager L M V)
    (op : QueryOp L M V) :
    ((queryStep m op).2.all fun e => !createsOrReplaces e) = true := by
  cases op with
  | lshQuery load =>
    cases hm : m.lsh <;> simp [queryStep, set_lsh_effects, hm, createsOrReplaces]
  | vectorQuery load =>
    cases hm : m.vector_db <;>
      simp [queryStep, set_vector_db_effects, hm, createsOrReplaces]

/-- C9.  A session never creates or replaces on-disk content through query
operations: every filesystem effect of any sequence of `query_lsh` and
`query_vector_db` calls (and their load steps) is a read-only open, whereas
the offline `make_db_context_vec_db` build is what creates or replaces the
vector index artifact at the fixed per-database location. -/
theorem queries_never_create_store (L M V : Type) (m : Manager L M V)
    (ops : List (QueryOp L M V)) (p : String) (oldIndexExists : Bool) :
    ((runQueries m ops).2.all fun e => !createsOrReplaces e) = true ∧
    FsEffect.createStore (p ++ "/context_vector_db") ∈
      make_db_context_vec_db_effects p oldIndexExists := by
  constructor
  · induction ops generalizing m with
    | nil => rfl
    | cons op ops ih =>
      have hstep := queryStep_effects_readonly m op
      simp only [runQueries, List.all_append]
      simp [hstep, ih (queryStep m op).1]
  · cases oldIndexExists <;> simp [make_db_context_vec_db_effects]

end ChessPlus
